import Mathlib

/-!
Shallow embedding of pyrr/matrix44.py (4x4 matrix utilities for 3D
graphics) and verification of its specification.

Modelling conventions:
* Python floats are modelled by exact rationals (`ℚ`); the one function
  whose formulas are transcendental (`create_perspective_projection_matrix`,
  which uses `math.tan` and `math.radians`) is modelled over the reals.
  The spec itself asks for behavioural, not bit-level, agreement.
* A numpy 4x4 array is `Matrix (Fin 4) (Fin 4) ℚ` (row-major: first index
  is the row).  `numpy.dot(v, m)` for a row vector `v` is `Matrix.vecMul`.
* The `vec` argument of `apply_to_vector` is modelled by its flat list of
  elements: numpy's `vec.size` is the total element count, independent of
  shape, and it alone selects the branch taken; `vec.size` is `List.length`.
* A Python `raise ValueError(msg)` is `Except.error msg`; a normal return
  is `Except.ok`.
* In `multiply`, `out == m1` is a numpy elementwise comparison; using it
  as a Python truth value calls `bool()` on the resulting boolean array,
  which raises a ValueError for arrays of more than one element.  This
  truth-test is modelled by `np_truth_value` below.  `None == array` is a
  plain scalar `False` in the numpy generation this code targets, so the
  `out = None` default skips the guard.
-/

namespace Pyrr

/-- A 4x4 row-major matrix of (exact) floats. -/
abbrev Matrix4 := Matrix (Fin 4) (Fin 4) ℚ

/-- From matrix44.py: `create_identity` returns `numpy.identity(4)`. -/
def create_identity : Matrix4 := 1

/-- Message of the ValueError raised by `apply_to_vector` on a vector whose
size is neither 3 nor 4. -/
def vector_size_error_msg : String := "Vector size unsupported"

/-- Message of the ValueError raised by numpy when a multi-element boolean
array is used as a truth value. -/
def truth_ambiguous_msg : String :=
  "The truth value of an array with more than one element is ambiguous. Use a.any() or a.all()"

/-- Message of the ValueError raised by the aliasing guard in `multiply`. -/
def output_aliasing_msg : String :=
  "Output must not be one of the inputs, use assignment instead"

/-- From matrix44.py: `apply_to_vector(mat, vec)`.

    * `vec.size == 3`: build `vec4 = [v0, v1, v2, 1.0]`, compute
      `vec4 = numpy.dot(vec4, mat)`; if `vec4[-1] != 0.0` divide the whole
      vector by `vec4[-1]`; return `vec4[:-1]`.
    * `vec.size == 4`: return `numpy.dot(vec, mat)`.
    * otherwise: `raise ValueError("Vector size unsupported")`.

    The branch is selected by the total element count of `vec`, which is
    the length of the modelled flat list. -/
def apply_to_vector (mat : Matrix4) (vec : List ℚ) : Except String (List ℚ) :=
  match vec with
  | [x, y, z] =>
      let vec4 := Matrix.vecMul ![x, y, z, 1] mat
      if vec4 3 ≠ 0 then
        let divided := fun i => vec4 i / vec4 3
        Except.ok [divided 0, divided 1, divided 2]
      else
        Except.ok [vec4 0, vec4 1, vec4 2]
  | [x, y, z, w] =>
      let r := Matrix.vecMul ![x, y, z, w] mat
      Except.ok [r 0, r 1, r 2, r 3]
  | _ => Except.error vector_size_error_msg

/-- Elementwise `==` of two 4x4 numpy arrays, flattened: the 16 entrywise
boolean comparison results. -/
def np_elementwise_eq (a b : Matrix4) : List Bool :=
  [decide (a 0 0 = b 0 0), decide (a 0 1 = b 0 1),
   decide (a 0 2 = b 0 2), decide (a 0 3 = b 0 3),
   decide (a 1 0 = b 1 0), decide (a 1 1 = b 1 1),
   decide (a 1 2 = b 1 2), decide (a 1 3 = b 1 3),
   decide (a 2 0 = b 2 0), decide (a 2 1 = b 2 1),
   decide (a 2 2 = b 2 2), decide (a 2 3 = b 2 3),
   decide (a 3 0 = b 3 0), decide (a 3 1 = b 3 1),
   decide (a 3 2 = b 3 2), decide (a 3 3 = b 3 3)]

/-- Python truth value of a numpy boolean array: a one-element array
yields its element; any array with more than one element raises
ValueError (the empty case is unreachable for 4x4 comparisons and is
modelled as the same error). -/
def np_truth_value (bs : List Bool) : Except String Bool :=
  match bs with
  | [b] => Except.ok b
  | _ => Except.error truth_ambiguous_msg

/-- From matrix44.py: `multiply(m1, m2, out=None)`.

    The guard `if out == m1 or out == m2: raise ValueError(...)` is
    evaluated with Python short-circuit `or`, truth-testing each numpy
    elementwise comparison in turn; with `out = None` both comparisons are
    the scalar `False` and the guard is skipped.  The result is
    `numpy.dot(m1, m2, out=out)`, the matrix product. -/
def multiply (m1 m2 : Matrix4) (out : Option Matrix4) : Except String Matrix4 :=
  match out with
  | none => Except.ok (m1 * m2)
  | some o => do
      let b1 ← np_truth_value (np_elementwise_eq o m1)
      if b1 then
        Except.error output_aliasing_msg
      else do
        let b2 ← np_truth_value (np_elementwise_eq o m2)
        if b2 then
          Except.error output_aliasing_msg
        else
          Except.ok (m1 * m2)

/-- From matrix44.py: `create_from_translation(vec)` starts from the
identity and assigns `mat[3, 0:3] = vec[:3]` (the entry at row 3 column 3
is left at its identity value).  The assignment needs exactly three source
elements; a shorter `vec[:3]` fails to broadcast. -/
def create_from_translation (vec : List ℚ) : Except String Matrix4 :=
  match vec.take 3 with
  | [a, b, c] =>
      Except.ok ((create_identity).updateRow 3 ![a, b, c, create_identity 3 3])
  | _ => Except.error "could not broadcast input array"

/-- From matrix44.py: `create_orthogonal_projection_matrix(left, right,
top, bottom, near, far)`. -/
def create_orthogonal_projection_matrix
    (left right top bottom near far : ℚ) : Matrix4 :=
  let A := 2 / (right - left)
  let B := 2 / (top - bottom)
  let C := -2 / (far - near)
  !![A, 0, 0, 0;
     0, B, 0, 0;
     0, 0, C, 0;
     0, 0, 0, 1]

/-- From matrix44.py: `create_perspective_projection_matrix_from_bounds(
left, right, top, bottom, near, far)`. -/
def create_perspective_projection_matrix_from_bounds
    (left right top bottom near far : ℚ) : Matrix4 :=
  let A := (right + left) / (right - left)
  let B := (top + bottom) / (top - bottom)
  let C := -(far + near) / (far - near)
  let D := -2 * far * near / (far - near)
  let E := 2 * near / (right - left)
  let F := 2 * near / (top - bottom)
  !![E, 0, 0, 0;
     0, F, 0, 0;
     A, B, C, -1;
     0, 0, D, 0]

/-- Python `math.radians(x)`: degrees to radians. -/
noncomputable def radians (degrees : ℝ) : ℝ := degrees * Real.pi / 180

/-- From matrix44.py: `create_perspective_projection_matrix(fovy, aspect,
near, far)`, with `fovy` in degrees; uses `math.tan`. -/
noncomputable def create_perspective_projection_matrix
    (fovy aspect near far : ℝ) : Matrix (Fin 4) (Fin 4) ℝ :=
  let f := 1 / Real.tan (radians (fovy / 2))
  let A := f / aspect
  let B := 1 * (near + far) / (near - far)
  let C := (2 * near * far) / (near - far)
  !![A, 0, 0, 0;
     0, f, 0, 0;
     0, 0, B, -1;
     0, 0, C, 0]

/-- Row-vector-times-matrix, written out over the four summands. -/
theorem vecMul_apply (v : Fin 4 → ℚ) (m : Matrix4) (j : Fin 4) :
    Matrix.vecMul v m j = v 0 * m 0 j + v 1 * m 1 j + v 2 * m 2 j + v 3 * m 3 j := by
  simp [Matrix.vecMul, Matrix.dotProduct, Fin.sum_univ_four]

/-- C1: apply_to_vector promotes a 3-component vector to `[v0, v1, v2, 1]`,
computes the row-vector product `p = v4 · M`, divides all components by the
fourth when it is nonzero and returns the first three; a 4-component vector
is multiplied directly with no normalization; any other size raises
ValueError. -/
theorem apply_to_vector_characterization :
    (∀ (m : Matrix4) (x y z : ℚ),
      apply_to_vector m [x, y, z] =
        (let p : Fin 4 → ℚ := fun j => x * m 0 j + y * m 1 j + z * m 2 j + 1 * m 3 j
         if p 3 = 0 then Except.ok [p 0, p 1, p 2]
         else Except.ok [p 0 / p 3, p 1 / p 3, p 2 / p 3]))
    ∧ (∀ (m : Matrix4) (x y z w : ℚ),
      apply_to_vector m [x, y, z, w] =
        Except.ok [x * m 0 0 + y * m 1 0 + z * m 2 0 + w * m 3 0,
                   x * m 0 1 + y * m 1 1 + z * m 2 1 + w * m 3 1,
                   x * m 0 2 + y * m 1 2 + z * m 2 2 + w * m 3 2,
                   x * m 0 3 + y * m 1 3 + z * m 2 3 + w * m 3 3])
    ∧ (∀ (m : Matrix4) (v : List ℚ), v.length ≠ 3 → v.length ≠ 4 →
      apply_to_vector m v = Except.error vector_size_error_msg) := by
  refine ⟨?_, ?_, ?_⟩
  · intro m x y z
    have h : ∀ j, Matrix.vecMul ![x, y, z, 1] m j =
        x * m 0 j + y * m 1 j + z * m 2 j + 1 * m 3 j := by
      intro j
      rw [vecMul_apply]
      simp
    simp only [apply_to_vector, h]
    by_cases h3 : x * m 0 3 + y * m 1 3 + z * m 2 3 + 1 * m 3 3 = 0
    · simp [h3]
    · simp [h3]
  · intro m x y z w
    have h : ∀ j, Matrix.vecMul ![x, y, z, w] m j =
        x * m 0 j + y * m 1 j + z * m 2 j + w * m 3 j := by
      intro j
      rw [vecMul_apply]
      simp
    simp only [apply_to_vector, h]
  · intro m v h3 h4
    match v with
    | [] => rfl
    | [a] => rfl
    | [a, b] => rfl
    | [a, b, c] => exact absurd rfl h3
    | [a, b, c, d] => exact absurd rfl h4
    | a :: b :: c :: d :: e :: rest => rfl

/-- Witness for C1: the unsupported-size branch at the concrete input
`[1, 2]`. -/
theorem apply_to_vector_characterization_witness :
    (([1, 2] : List ℚ).length ≠ 3 ∧ ([1, 2] : List ℚ).length ≠ 4)
    ∧ apply_to_vector create_identity [1, 2] = Except.error vector_size_error_msg :=
  ⟨⟨by decide, by decide⟩,
   apply_to_vector_characterization.2.2 create_identity [1, 2] (by decide) (by decide)⟩

/-- C8: create_from_translation yields the identity with row 3, columns
0 to 2, set from the first three components of the input; the entry at
row 3, column 3 stays 1, and a fourth input component is ignored. -/
theorem create_from_translation_spec :
    ∀ a b c d : ℚ,
      create_from_translation [a, b, c] =
        Except.ok !![1, 0, 0, 0;
                     0, 1, 0, 0;
                     0, 0, 1, 0;
                     a, b, c, 1]
      ∧ create_from_translation [a, b, c, d] = create_from_translation [a, b, c] := by
  intro a b c d
  constructor
  · have h : create_from_translation [a, b, c] =
        Except.ok ((create_identity).updateRow 3 ![a, b, c, create_identity 3 3]) := rfl
    rw [h]
    congr 1
    ext i j
    fin_cases i <;> fin_cases j <;>
      simp [Matrix.updateRow_apply, create_identity, Matrix.one_apply]
  · rfl

/-- C9: applying a translation matrix to a 3-component point adds the
translation componentwise; the identity matrix leaves the point unchanged. -/
theorem apply_translation_to_point :
    ∀ tx ty tz x y z : ℚ,
      (create_from_translation [tx, ty, tz]).bind
          (fun m => apply_to_vector m [x, y, z]) =
        Except.ok [x + tx, y + ty, z + tz]
      ∧ apply_to_vector create_identity [x, y, z] = Except.ok [x, y, z] := by
  intro tx ty tz x y z
  constructor
  · show apply_to_vector
        ((create_identity).updateRow 3 ![tx, ty, tz, create_identity 3 3]) [x, y, z] = _
    simp only [apply_to_vector, vecMul_apply]
    simp +decide [Matrix.updateRow_apply, create_identity, Matrix.one_apply]
  · simp only [apply_to_vector, vecMul_apply]
    simp +decide [create_identity, Matrix.one_apply]

/-- C4: apply_to_vector does not support batched vectors: a batch of two
3-vectors is a numpy array of size 6, which falls into the unsupported-size
branch and raises ValueError, although the docstring promises "Can be a
list of vectors". -/
theorem apply_to_vector_batched_vectors_fail :
    apply_to_vector create_identity [1, 2, 3, 4, 5, 6] =
      Except.error vector_size_error_msg := rfl

/-- C3 counterexample: with `m1 = m2 = 1` and a zero output buffer — a
buffer that aliases neither input, differing from both in value — the call
does not return the product `1 * 1`; truth-testing the elementwise
comparison raises ValueError first, so the claim "otherwise returns the
matrix product" is false. -/
theorem multiply_out_counterexample :
    (0 : Matrix4) ≠ 1
    ∧ multiply 1 1 (some 0) = Except.error truth_ambiguous_msg
    ∧ multiply 1 1 (some 0) ≠ Except.ok ((1 : Matrix4) * 1) := by
  refine ⟨?_, rfl, ?_⟩
  · intro h
    have h00 := congrFun (congrFun h 0) 0
    simp [Matrix.zero_apply, Matrix.one_apply] at h00
  · intro h
    exact Except.noConfusion h

/-- C3 amended: multiply with `out` omitted (None) returns the matrix
product `m1 * m2` (the genuine row-by-column product, not elementwise);
whenever any 4x4 output buffer is supplied — aliasing or not — the truth
test of the elementwise comparison `out == m1` raises ValueError before
the aliasing guard's own InvalidArgument error or any product is reached. -/
theorem multiply_spec_amended :
    (∀ m1 m2 : Matrix4, multiply m1 m2 none = Except.ok (m1 * m2))
    ∧ (∀ m1 m2 o : Matrix4, multiply m1 m2 (some o) = Except.error truth_ambiguous_msg)
    ∧ (∀ (m1 m2 : Matrix4) (i j : Fin 4),
        (m1 * m2) i j =
          m1 i 0 * m2 0 j + m1 i 1 * m2 1 j + m1 i 2 * m2 2 j + m1 i 3 * m2 3 j) := by
  refine ⟨fun _ _ => rfl, fun _ _ _ => rfl, ?_⟩
  intro m1 m2 i j
  simp [Matrix.mul_apply, Fin.sum_univ_four]

/-- C10: whenever a non-None 4x4 output buffer is passed, multiply raises
an error before computing any product, whatever the buffer's contents:
the guard uses elementwise value comparison, whose 16-element boolean
array has no Python truth value, so no output buffer can ever be used
successfully. -/
theorem multiply_with_out_buffer_always_errors :
    ∀ m1 m2 o : Matrix4, multiply m1 m2 (some o) = Except.error truth_ambiguous_msg :=
  fun _ _ _ => rfl

/-- C6: the orthogonal projection matrix is exactly the diagonal matrix
diag(2/(right-left), 2/(top-bottom), -2/(far-near), 1) with every
off-diagonal entry zero; in particular no translation terms appear even
for a frustum not symmetric about the origin, as in the concrete
asymmetric instance. -/
theorem orthogonal_projection_diag :
    (∀ left right top bottom near far : ℚ,
      create_orthogonal_projection_matrix left right top bottom near far =
        Matrix.diagonal ![2 / (right - left), 2 / (top - bottom), -2 / (far - near), 1])
    ∧ create_orthogonal_projection_matrix 0 4 3 1 2 10 =
        Matrix.diagonal ![1 / 2, 1, -1 / 4, 1] := by
  have h1 : ∀ left right top bottom near far : ℚ,
      create_orthogonal_projection_matrix left right top bottom near far =
        Matrix.diagonal ![2 / (right - left), 2 / (top - bottom), -2 / (far - near), 1] := by
    intro left right top bottom near far
    ext i j
    fin_cases i <;> fin_cases j <;>
      simp [create_orthogonal_projection_matrix, Matrix.diagonal,
        Matrix.vecHead, Matrix.vecTail]
  refine ⟨h1, ?_⟩
  rw [h1]
  funext k
  fin_cases k <;> norm_num

/-- C7: the perspective projection from near-plane bounds is exactly the
row-major matrix [[E,0,0,0],[0,F,0,0],[A,B,C,-1],[0,0,D,0]] with
A=(right+left)/(right-left), B=(top+bottom)/(top-bottom),
C=-(far+near)/(far-near), D=-2*far*near/(far-near), E=2*near/(right-left),
F=2*near/(top-bottom); checked also on a concrete frustum. -/
theorem perspective_from_bounds_spec :
    (∀ left right top bottom near far : ℚ,
      create_perspective_projection_matrix_from_bounds left right top bottom near far =
        !![2 * near / (right - left), 0, 0, 0;
           0, 2 * near / (top - bottom), 0, 0;
           (right + left) / (right - left), (top + bottom) / (top - bottom),
             -(far + near) / (far - near), -1;
           0, 0, -2 * far * near / (far - near), 0])
    ∧ create_perspective_projection_matrix_from_bounds (-2) 2 1 (-1) 1 10 =
        !![1 / 2, 0, 0, 0;
           0, 1, 0, 0;
           0, 0, -11 / 9, -1;
           0, 0, -20 / 9, 0] := by
  have h1 : ∀ left right top bottom near far : ℚ,
      create_perspective_projection_matrix_from_bounds left right top bottom near far =
        !![2 * near / (right - left), 0, 0, 0;
           0, 2 * near / (top - bottom), 0, 0;
           (right + left) / (right - left), (top + bottom) / (top - bottom),
             -(far + near) / (far - near), -1;
           0, 0, -2 * far * near / (far - near), 0] :=
    fun _ _ _ _ _ _ => rfl
  refine ⟨h1, ?_⟩
  rw [h1]
  ext i j
  fin_cases i <;> fin_cases j <;> norm_num

/-- Value of math.radians at the half field of view of 45 degrees. -/
theorem radians_forty_five : radians 45 = Real.pi / 4 := by
  unfold radians
  ring

/-- C2: the symmetric perspective projection is exactly the row-major
matrix [[A,0,0,0],[0,f,0,0],[0,0,B,-1],[0,0,C,0]] with
f = 1/tan(radians(fovy/2)), A = f/aspect, B = (near+far)/(near-far),
C = 2*near*far/(near-far); at fovy=90, aspect=1, near=1, far=10 the
entry at row 0, column 0 is 1 and the entry at row 2, column 3 is -1. -/
theorem create_perspective_projection_matrix_spec :
    (∀ fovy aspect near far : ℝ,
      create_perspective_projection_matrix fovy aspect near far =
        !![1 / Real.tan (radians (fovy / 2)) / aspect, 0, 0, 0;
           0, 1 / Real.tan (radians (fovy / 2)), 0, 0;
           0, 0, (near + far) / (near - far), -1;
           0, 0, 2 * near * far / (near - far), 0])
    ∧ create_perspective_projection_matrix 90 1 1 10 0 0 = 1
    ∧ create_perspective_projection_matrix 90 1 1 10 2 3 = -1 := by
  have h1 : ∀ fovy aspect near far : ℝ,
      create_perspective_projection_matrix fovy aspect near far =
        !![1 / Real.tan (radians (fovy / 2)) / aspect, 0, 0, 0;
           0, 1 / Real.tan (radians (fovy / 2)), 0, 0;
           0, 0, (near + far) / (near - far), -1;
           0, 0, 2 * near * far / (near - far), 0] := by
    intro fovy aspect near far
    unfold create_perspective_projection_matrix
    ext i j
    fin_cases i <;> fin_cases j <;> norm_num
  refine ⟨h1, ?_, ?_⟩
  · rw [h1]
    norm_num [radians_forty_five, Real.tan_pi_div_four]
  · rw [h1]
    norm_num

end Pyrr
